import Mathlib

/-!
Shallow embedding of the local dev-registry with ownership handoff
(`packages/wrangler/src/dev-registry.tsx`) and of the timestamp store
(`packages/issue-triager` IssuesStore), together with theorems settling
the specification claims.

Modelling conventions:
* Module-level mutable variables (`server`, `workers`, `handOffReceiverPort`,
  `handOffReceiverServer`) become fields of an explicit `ProcState` record.
* Network calls (`fetch`) are parameterised by their outcome: `Except ErrCode α`
  where the error payload is the optional `e.cause.code` string the catch
  blocks inspect.
* Observable side effects (starting/stopping servers, HTTP requests issued,
  log lines) are recorded in an `Event` trace returned next to the new state.
* `Math.random()` becomes an explicit rational `r` (the claims quantify over
  `0 ≤ r < 1`); `Math.floor(r * n)` becomes `⌊r * n⌋₊`.
* JSON objects with optional fields become structures with `Option` fields;
  a field equal to `none` corresponds to the field being absent after
  `JSON.stringify` (which drops `undefined` values).
-/

namespace DevRegistry

/-- Optional `cause.code` carried by a thrown fetch error. -/
abbrev ErrCode := Option String

/-- The `durableObjects` entries of a worker definition. -/
structure DurableObjectEntry where
  name : String
  className : String
deriving DecidableEq

/-- The `protocol` field. -/
inductive Protocol where
  | http
  | https
deriving DecidableEq

/-- The `mode` field. -/
inductive WorkerMode where
  | localMode
  | remoteMode
deriving DecidableEq

/-- One registry entry, from the source `WorkerDefinition` type. -/
structure WorkerDefinition where
  port : Option Nat
  protocol : Option Protocol
  host : Option String
  mode : WorkerMode
  headers : Option (List (String × String))
  durableObjects : List DurableObjectEntry
  durableObjectsHost : Option String
  durableObjectsPort : Option Nat
  handOffReceiverPort : Option Nat
deriving DecidableEq

/-- `WorkerRegistry = Record<string, WorkerDefinition>`, as an association
list in insertion order (JS object key order). -/
abbrev WorkerRegistry := List (String × WorkerDefinition)

/-- The module-level state of one wrangler process. `serverVar` models the
`server` variable being assigned (it is never cleared in the source, so it is
sticky); `registryRunning` models the underlying HTTP server still listening
(cleared by `terminator.terminate()`). -/
structure ProcState where
  serverVar : Bool
  registryRunning : Bool
  workers : WorkerRegistry
  handOffReceiverPort : Option Nat
  handOffReceiverStarted : Bool
deriving DecidableEq

/-- Observable effects of the embedded operations. -/
inductive Event where
  | startReceiver
  | logError (msg : String)
  | logDebug (msg : String)
  | logConsole (msg : String)
  | postWorker (name : String) (body : WorkerDefinition)
  | deleteWorker (name : String)
  | handOffPost (host : Option String) (port : Option Nat) (body : WorkerRegistry)
  | stopRegistry
  | stopReceiver
  | startRegistryCall
  | registryListen
deriving DecidableEq

/-- `["ECONNRESET", "ECONNREFUSED"].includes((e.cause?.code) || "___")`:
the check every catch block applies to decide whether the failure means
"no registry present". JS `||` replaces both a missing and an empty code
with the sentinel. -/
def isConnClosedCode (c : ErrCode) : Bool :=
  ["ECONNRESET", "ECONNREFUSED"].contains
    (match c with
      | none => "___"
      | some s => if s = "" then "___" else s)

/-- `isPortAvailable()`: resolves `false` on `EADDRINUSE`, `true` when the
probe bind succeeded (`bindError = none`), rejects on any other bind error. -/
def isPortAvailable (bindError : Option String) : Except String Bool :=
  match bindError with
  | none => Except.ok true
  | some code => if code = "EADDRINUSE" then Except.ok false else Except.error code

/-- `workers[workerId] = body`: insert or overwrite, keeping JS object key
order (an existing key keeps its position). -/
def setWorker : WorkerRegistry → String → WorkerDefinition → WorkerRegistry
  | [], n, d => [(n, d)]
  | (k, v) :: rest, n, d =>
      if k = n then (n, d) :: rest else (k, v) :: setWorker rest n d

/-- Key lookup in the registry object. -/
def lookupWorker (w : WorkerRegistry) (n : String) : Option WorkerDefinition :=
  List.lookup n w

/-- `startWorkerRegistry()`: probe the well-known port, and start the server
only when the port is available and no local `server` handle exists.
`Event.startRegistryCall` marks the call itself, `Event.registryListen` the
actual `server.listen`. -/
def startWorkerRegistry (st : ProcState) (bindError : Option String) :
    Except String (ProcState × List Event) :=
  match isPortAvailable bindError with
  | Except.error c => Except.error c
  | Except.ok avail =>
      if avail && !st.serverVar then
        Except.ok ({ st with serverVar := true, registryRunning := true },
          [Event.startRegistryCall, Event.registryListen])
      else
        Except.ok (st, [Event.startRegistryCall])

/-- `stopWorkerRegistry()`: `terminator?.terminate()` stops the listener
(the `server` variable itself is never cleared). -/
def stopWorkerRegistry (st : ProcState) : ProcState × List Event :=
  ({ st with registryRunning := false }, [Event.stopRegistry])

/-- `stopHandOffReceiverServer()`: `handOffReceiverTerminator?.terminate()`. -/
def stopHandOffReceiverServer (st : ProcState) : ProcState × List Event :=
  ({ st with handOffReceiverStarted := false }, [Event.stopReceiver])

/-- The HandoffReceiver `POST /` handler: `workers = req.body` (wholesale
replacement) followed by `await startWorkerRegistry()`. -/
def handOffReceiverHandler (st : ProcState) (body : WorkerRegistry)
    (bindError : Option String) : Except String (ProcState × List Event) :=
  startWorkerRegistry { st with workers := body } bindError

/-- The filter defining handoff candidates inside `handOff`:
entries whose `handOffReceiverPort` is defined and differs from this
process's own `handOffReceiverPort` variable. -/
def handOffCandidates (st : ProcState) : List (String × WorkerDefinition) :=
  st.workers.filter
    (fun p =>
      p.2.handOffReceiverPort.isSome &&
        decide (p.2.handOffReceiverPort ≠ st.handOffReceiverPort))

/-- `Math.floor(r * n)` for the random draw `r` (`Math.random()` yields a
value in `[0, 1)`, hence nonnegative). -/
def chooseIdx (r : ℚ) (n : ℕ) : ℕ := ⌊r * (n : ℚ)⌋₊

/-- Events of the swallowed `catch (e) { console.error(e) }` around the
handoff POST. -/
def handOffPostFailEvents : Except ErrCode Unit → List Event
  | Except.ok _ => []
  | Except.error _ => [Event.logConsole "handoff post error"]

/-- The conditional part of `handOff`: when this process holds a `server`
handle and candidates exist, stop the registry and POST the whole registry
state to the randomly chosen candidate (POST errors swallowed). -/
def handOffBranch (st : ProcState) (r : ℚ) (postOutcome : Except ErrCode Unit) :
    ProcState × List Event :=
  if st.serverVar then
    let handOffableWorkers := handOffCandidates st
    if 0 < handOffableWorkers.length then
      match handOffableWorkers.get? (chooseIdx r handOffableWorkers.length) with
      | none => (st, [])
      | some (chosenHandOffName, chosenHandOff) =>
          let s := stopWorkerRegistry st
          (s.1,
            Event.logDebug
                ("Handing off local service registry to " ++ chosenHandOffName) ::
              s.2 ++
              [Event.handOffPost chosenHandOff.host chosenHandOff.handOffReceiverPort
                  s.1.workers] ++
              handOffPostFailEvents postOutcome)
    else
      (st,
        [Event.logDebug
            "No other wrangler processes available to hand off local service registry to."])
  else (st, [])

/-- `handOff()`: the conditional handoff, then unconditionally
`stopWorkerRegistry()` and `stopHandOffReceiverServer()`. -/
def handOff (st : ProcState) (r : ℚ) (postOutcome : Except ErrCode Unit) :
    ProcState × List Event :=
  let b := handOffBranch st r postOutcome
  let s2 := stopWorkerRegistry b.1
  let s3 := stopHandOffReceiverServer s2.1
  (s3.1, b.2 ++ s2.2 ++ s3.2)

/-- Log events of `registerWorker`'s catch block around its POST. -/
def registerPostFailEvents : Except ErrCode Unit → List Event
  | Except.ok _ => []
  | Except.error c =>
      if isConnClosedCode c then
        [Event.logDebug "Failed to register worker in local service registry"]
      else
        [Event.logError "Failed to register worker in local service registry"]

/-- `registerWorker(name, definition)`: create and listen the HandoffReceiver
(`listenAddr` is the port from `server.address()`, `none` when no usable
address was obtained), record the port in the module variable on success,
then POST `{ ...definition, handOffReceiverPort }` to the well-known host,
swallowing all POST errors. -/
def registerWorker (st : ProcState) (name : String) (definition : WorkerDefinition)
    (listenAddr : Option Nat) (postOutcome : Except ErrCode Unit) :
    ProcState × List Event :=
  let st1 := { st with handOffReceiverStarted := true }
  let st2 :=
    match listenAddr with
    | none => st1
    | some p => { st1 with handOffReceiverPort := some p }
  let addrEvents :=
    match listenAddr with
    | none => [Event.logError "Could not create hand-off receiver for local service registry"]
    | some _ => ([] : List Event)
  let body := { definition with handOffReceiverPort := st2.handOffReceiverPort }
  (st2,
    Event.startReceiver ::
      addrEvents ++ [Event.postWorker name body] ++ registerPostFailEvents postOutcome)

/-- `unregisterWorker(name)`: DELETE to the well-known host; only when the
DELETE resolves does `handOff()` run; a connection-refused/reset failure is
swallowed, any other failure propagates. -/
def unregisterWorker (st : ProcState) (name : String)
    (delOutcome : Except ErrCode Unit) (r : ℚ) (postOutcome : Except ErrCode Unit) :
    Except ErrCode (ProcState × List Event) :=
  match delOutcome with
  | Except.ok _ =>
      let h := handOff st r postOutcome
      Except.ok (h.1, Event.deleteWorker name :: h.2)
  | Except.error c =>
      if isConnClosedCode c then Except.ok (st, [Event.deleteWorker name])
      else Except.error c

/-- `getRegisteredWorkers()`: GET `/workers`; a connection-refused/reset
failure returns `none` (absent), any other failure propagates. -/
def getRegisteredWorkers (outcome : Except ErrCode WorkerRegistry) :
    Except ErrCode (Option WorkerRegistry) :=
  match outcome with
  | Except.ok w => Except.ok (some w)
  | Except.error c =>
      if isConnClosedCode c then Except.ok none else Except.error c

/-- A `services` config entry (only the `service` field is read). -/
structure ServiceBinding where
  service : String
deriving DecidableEq

/-- A `durable_objects.bindings` config entry (only `script_name` is read;
it is optional in the config type). -/
structure DurableObjectBinding where
  script_name : Option String
deriving DecidableEq

/-- The `durable_objects` config section. -/
structure DurableObjectsConfig where
  bindings : List DurableObjectBinding
deriving DecidableEq

/-- The filter predicate of `getBoundRegisteredWorkers`:
`serviceNames.includes(key) || durableObjectServices.includes(key)` (the
second list may contain missing script names, which never equal a key). -/
def boundWorkerFilter (serviceNames : List String)
    (durableObjectServices : List (Option String)) (p : String × WorkerDefinition) : Bool :=
  serviceNames.contains p.1 || durableObjectServices.contains (some p.1)

/-- `getBoundRegisteredWorkers({services, durableObjects})`: compute declared
service names and durable-object script names, fetch the registry, keep only
matching entries (`workerDefinitions || {}` makes an absent registry empty). -/
def getBoundRegisteredWorkers (services : Option (List ServiceBinding))
    (durableObjects : Option DurableObjectsConfig)
    (fetchOutcome : Except ErrCode WorkerRegistry) : Except ErrCode WorkerRegistry :=
  let serviceNames := (services.getD []).map (fun b => b.service)
  let durableObjectServices := (durableObjects.getD ⟨[]⟩).bindings.map (fun b => b.script_name)
  match getRegisteredWorkers fetchOutcome with
  | Except.error c => Except.error c
  | Except.ok workerDefinitions =>
      Except.ok
        ((workerDefinitions.getD []).filter
          (boundWorkerFilter serviceNames durableObjectServices))

/-- A concrete worker definition used by counterexamples and witnesses. -/
def sampleDefinition : WorkerDefinition :=
  { port := some 8787
    protocol := some Protocol.http
    host := some "localhost"
    mode := WorkerMode.localMode
    headers := none
    durableObjects := []
    durableObjectsHost := none
    durableObjectsPort := none
    handOffReceiverPort := none }

/-- A concrete fresh process state (no server, empty registry, no receiver). -/
def freshState : ProcState :=
  { serverVar := false
    registryRunning := false
    workers := []
    handOffReceiverPort := none
    handOffReceiverStarted := false }

end DevRegistry

namespace IssuesStore

/-- The durable storage cell under the key `lastUpdatedTimestamp`. -/
abbrev Storage := Option String

/-- `getLastUpdatedTimestamp()`: return the stored value when truthy
(a defined, non-empty string), else the default timestamp. -/
def getLastUpdatedTimestamp (storage : Storage) : String :=
  match storage with
  | some timestamp =>
      if timestamp = "" then "2000-01-01T00:00:00Z" else timestamp
  | none => "2000-01-01T00:00:00Z"

/-- `setLastUpdatedTimestamp(timestamp)`: `storage.put` overwrites the cell. -/
def setLastUpdatedTimestamp (_storage : Storage) (timestamp : String) : Storage :=
  some timestamp

end IssuesStore

namespace DevRegistry

theorem lookupWorker_setWorker (w : WorkerRegistry) (n : String) (d : WorkerDefinition) :
    lookupWorker (setWorker w n d) n = some d := by
  induction w with
  | nil => simp [setWorker, lookupWorker, List.lookup]
  | cons head tail ih =>
      obtain ⟨k, v⟩ := head
      by_cases h : k = n
      · simp [setWorker, h, lookupWorker, List.lookup]
      · have h2 : (n == k) = false := beq_eq_false_iff_ne.mpr (Ne.symm h)
        simp only [setWorker, if_neg h, lookupWorker, List.lookup, h2] at ih ⊢
        exact ih

/-- Claim C6: `getRegisteredWorkers` returns the registry on success, returns
absent (`none`) on a connection-refused/reset failure, and propagates any
other failure. -/
theorem getRegisteredWorkers_error_handling :
    (∀ w : WorkerRegistry, getRegisteredWorkers (Except.ok w) = Except.ok (some w)) ∧
    (∀ c : ErrCode, isConnClosedCode c = true →
      getRegisteredWorkers (Except.error c) = Except.ok none) ∧
    (∀ c : ErrCode, isConnClosedCode c = false →
      getRegisteredWorkers (Except.error c) = Except.error c) := by
  refine ⟨fun w => rfl, fun c hc => ?_, fun c hc => ?_⟩ <;>
    simp [getRegisteredWorkers, hc]

/-- Witness for C6 at concrete error codes. -/
theorem getRegisteredWorkers_error_handling_witness :
    (isConnClosedCode (some "ECONNREFUSED") = true ∧
      getRegisteredWorkers (Except.error (some "ECONNREFUSED")) = Except.ok none) ∧
    (isConnClosedCode (some "EBADF") = false ∧
      getRegisteredWorkers (Except.error (some "EBADF")) = Except.error (some "EBADF")) :=
  ⟨⟨rfl, getRegisteredWorkers_error_handling.2.1 (some "ECONNREFUSED") rfl⟩,
   ⟨rfl, getRegisteredWorkers_error_handling.2.2 (some "EBADF") rfl⟩⟩

/-- Claim C3: round trip. `registerWorker` POSTs the definition with the
acquired receiver port merged in; a reachable RegistryServer stores that body
under the name, and `getRegisteredWorkers` then returns a registry whose
entry at the name equals the definition plus the injected port. -/
theorem register_roundTrip (st : ProcState) (w : WorkerRegistry) (name : String)
    (D : WorkerDefinition) (p : Nat) :
    Event.postWorker name { D with handOffReceiverPort := some p } ∈
        (registerWorker st name D (some p) (Except.ok ())).2 ∧
    getRegisteredWorkers
        (Except.ok (setWorker w name { D with handOffReceiverPort := some p })) =
      Except.ok (some (setWorker w name { D with handOffReceiverPort := some p })) ∧
    lookupWorker (setWorker w name { D with handOffReceiverPort := some p }) name =
      some { D with handOffReceiverPort := some p } := by
  refine ⟨?_, rfl, lookupWorker_setWorker w name _⟩
  simp [registerWorker, registerPostFailEvents]

/-- Counterexample to claim C2 as stated: a concrete `registerWorker` call
whose trace contains no `startWorkerRegistry` attempt at all (the source of
`registerWorker` never calls `startWorkerRegistry`). -/
theorem registerWorker_no_start_attempt :
    Event.startRegistryCall ∉
      (registerWorker freshState "a" sampleDefinition (some 4000) (Except.ok ())).2 := by
  decide

/-- Claim C2 as amended: every `registerWorker` call first starts the
HandoffReceiver and then POSTs the definition with this process's
`handOffReceiverPort` merged in; it does not itself invoke
`startWorkerRegistry`. -/
theorem registerWorker_sequence (st : ProcState) (name : String)
    (D : WorkerDefinition) (p : Nat) (post : Except ErrCode Unit) :
    (registerWorker st name D (some p) post).2 =
      [Event.startReceiver,
        Event.postWorker name { D with handOffReceiverPort := some p }] ++
        registerPostFailEvents post := rfl

/-- Counterexample to claim C8 as stated: when the receiver listen fails in a
process whose `handOffReceiverPort` variable was already set by an earlier
call, the POSTed body still carries that stale port rather than no port. -/
theorem registerWorker_stale_port_counterexample :
    (registerWorker
        { freshState with handOffReceiverPort := some 1111 }
        "a" sampleDefinition none (Except.ok ())).2 =
      [Event.startReceiver,
        Event.logError "Could not create hand-off receiver for local service registry",
        Event.postWorker "a" { sampleDefinition with handOffReceiverPort := some 1111 }] ∧
    ({ sampleDefinition with handOffReceiverPort := some 1111 }).handOffReceiverPort ≠
      none := ⟨rfl, by decide⟩

/-- Claim C8 as amended: when acquiring the receiver port fails, an error is
logged and registration proceeds, POSTing the definition with the process's
existing `handOffReceiverPort` value — which is absent (`none`) whenever no
earlier call in this process set it. -/
theorem registerWorker_degraded (st : ProcState) (name : String) (D : WorkerDefinition)
    (post : Except ErrCode Unit) (h : st.handOffReceiverPort = none) :
    (registerWorker st name D none post).2 =
      [Event.startReceiver,
        Event.logError "Could not create hand-off receiver for local service registry",
        Event.postWorker name { D with handOffReceiverPort := none }] ++
        registerPostFailEvents post := by
  simp [registerWorker, h]

/-- Witness for C8 amended at a fresh process state. -/
theorem registerWorker_degraded_witness :
    freshState.handOffReceiverPort = none ∧
    (registerWorker freshState "a" sampleDefinition none (Except.ok ())).2 =
      [Event.startReceiver,
        Event.logError "Could not create hand-off receiver for local service registry",
        Event.postWorker "a" { sampleDefinition with handOffReceiverPort := none }] ++
        registerPostFailEvents (Except.ok ()) :=
  ⟨rfl, registerWorker_degraded freshState "a" sampleDefinition (Except.ok ()) rfl⟩

theorem handOff_trace_eq (st : ProcState) (r : ℚ) (post : Except ErrCode Unit) :
    (handOff st r post).2 =
      (handOffBranch st r post).2 ++ [Event.stopRegistry, Event.stopReceiver] := by
  simp [handOff, stopWorkerRegistry, stopHandOffReceiverServer, List.append_assoc]

theorem handOff_state_flags (st : ProcState) (r : ℚ) (post : Except ErrCode Unit) :
    (handOff st r post).1.registryRunning = false ∧
    (handOff st r post).1.handOffReceiverStarted = false := by
  simp [handOff, stopWorkerRegistry, stopHandOffReceiverServer]

theorem handOffBranch_state_independent (st : ProcState) (r : ℚ)
    (post postAlt : Except ErrCode Unit) :
    (handOffBranch st r post).1 = (handOffBranch st r postAlt).1 := by
  cases hs : st.serverVar <;> simp only [handOffBranch, hs, Bool.false_eq_true,
    if_false, if_true]
  by_cases hl : 0 < (handOffCandidates st).length <;> simp only [hl, if_true, if_false]
  · cases hg : (handOffCandidates st).get? (chooseIdx r (handOffCandidates st).length) with
    | none => rfl
    | some c => cases c; rfl

/-- Claim C5: every `handOff` run terminates by stopping the RegistryServer
and this process’s own HandoffReceiver — its trace ends with those two stops
and the resulting state has both stopped — in every branch, and the outcome
state never depends on whether the handoff POST succeeded or failed (POST
errors are swallowed, never raised). -/
theorem handOff_always_shuts_down (st : ProcState) (r : ℚ)
    (post postB : Except ErrCode Unit) :
    (∃ pre, (handOff st r post).2 = pre ++ [Event.stopRegistry, Event.stopReceiver]) ∧
    (handOff st r post).1.registryRunning = false ∧
    (handOff st r post).1.handOffReceiverStarted = false ∧
    (handOff st r post).1 = (handOff st r postB).1 := by
  refine ⟨⟨(handOffBranch st r post).2, handOff_trace_eq st r post⟩,
    (handOff_state_flags st r post).1, (handOff_state_flags st r post).2, ?_⟩
  simp [handOff, stopWorkerRegistry, stopHandOffReceiverServer,
    handOffBranch_state_independent st r post postB]

/-- Counterexample to claim C1 as stated: a concrete `unregisterWorker` call
whose DELETE fails with connection refused returns without raising but with a
trace containing neither `stopRegistry` nor `stopReceiver` — the
HandoffCoordinator shutdown sequence (`handOff`) was not invoked. -/
theorem unregisterWorker_skips_handOff_counterexample :
    unregisterWorker freshState "a" (Except.error (some "ECONNREFUSED")) 0
        (Except.ok ()) =
      Except.ok (freshState, [Event.deleteWorker "a"]) ∧
    Event.stopReceiver ∉ [Event.deleteWorker "a"] ∧
    Event.stopRegistry ∉ [Event.deleteWorker "a"] :=
  ⟨rfl, by decide, by decide⟩

/-- Claim C1 as amended: `unregisterWorker` invokes the HandoffCoordinator
shutdown sequence (whose trace ends with both stops) only when the DELETE
resolves; when the DELETE fails with connection refused/reset the call
completes without raising but without invoking `handOff`; any other DELETE
failure propagates to the caller. -/
theorem unregisterWorker_amended (st : ProcState) (name : String) (r : ℚ)
    (post : Except ErrCode Unit) :
    (∃ pre, unregisterWorker st name (Except.ok ()) r post =
        Except.ok ((handOff st r post).1,
          Event.deleteWorker name ::
            (pre ++ [Event.stopRegistry, Event.stopReceiver]))) ∧
    (∀ c, isConnClosedCode c = true →
      unregisterWorker st name (Except.error c) r post =
        Except.ok (st, [Event.deleteWorker name])) ∧
    (∀ c, isConnClosedCode c = false →
      unregisterWorker st name (Except.error c) r post = Except.error c) := by
  refine ⟨⟨(handOffBranch st r post).2, ?_⟩,
    fun c hc => by simp [unregisterWorker, hc],
    fun c hc => by simp [unregisterWorker, hc]⟩
  simp [unregisterWorker, ← handOff_trace_eq st r post]

/-- Witness for C1 amended at concrete inputs. -/
theorem unregisterWorker_amended_witness :
    isConnClosedCode (some "ECONNRESET") = true ∧
    unregisterWorker freshState "w" (Except.error (some "ECONNRESET")) 0
        (Except.ok ()) =
      Except.ok (freshState, [Event.deleteWorker "w"]) :=
  ⟨rfl, (unregisterWorker_amended freshState "w" 0 (Except.ok ())).2.1
    (some "ECONNRESET") rfl⟩

/-- Claim C4: handoff candidates are exactly the registry entries whose
`handOffReceiverPort` is defined and differs from this process’s own receiver
port; and the draw `⌊r·n⌋` is uniform over a non-empty candidate list: it is a
valid index for every `r ∈ [0,1)`, it equals `i` exactly when `r` lies in
`[i/n, (i+1)/n)`, and each such interval has length `1/n`. -/
theorem handOff_candidates_uniform (st : ProcState) (r : ℚ)
    (h0 : 0 ≤ r) (h1 : r < 1) :
    (∀ nm d, (nm, d) ∈ handOffCandidates st ↔
      ((nm, d) ∈ st.workers ∧ d.handOffReceiverPort.isSome = true ∧
        d.handOffReceiverPort ≠ st.handOffReceiverPort)) ∧
    (∀ n : ℕ, 0 < n →
      chooseIdx r n < n ∧
      ∀ i : ℕ, i < n →
        ((chooseIdx r n = i ↔ (i : ℚ) / n ≤ r ∧ r < ((i : ℚ) + 1) / n) ∧
          ((i : ℚ) + 1) / n - (i : ℚ) / n = 1 / n)) ∧
    (∀ post : Except ErrCode Unit, st.serverVar = true →
      0 < (handOffCandidates st).length →
      ∃ nm d,
        (handOffCandidates st).get? (chooseIdx r (handOffCandidates st).length) =
          some (nm, d) ∧
        Event.handOffPost d.host d.handOffReceiverPort st.workers ∈
          (handOff st r post).2) := by
  have hidxgen : ∀ n : ℕ, 0 < n → chooseIdx r n < n := by
    intro n hn
    have hn' : (0 : ℚ) < n := by exact_mod_cast hn
    have hrn : 0 ≤ r * (n : ℚ) := mul_nonneg h0 (le_of_lt hn')
    have hlt : r * (n : ℚ) < (n : ℚ) := by
      calc r * (n : ℚ) < 1 * (n : ℚ) := mul_lt_mul_of_pos_right h1 hn'
      _ = (n : ℚ) := one_mul _
    exact (Nat.floor_lt hrn).mpr hlt
  refine ⟨?_, ?_, ?_⟩
  · intro nm d
    simp [handOffCandidates, List.mem_filter, and_assoc]
  · intro n hn
    have hn' : (0 : ℚ) < n := by exact_mod_cast hn
    have hrn : 0 ≤ r * (n : ℚ) := mul_nonneg h0 (le_of_lt hn')
    refine ⟨hidxgen n hn, fun i _ => ⟨?_, ?_⟩⟩
    · rw [chooseIdx, Nat.floor_eq_iff hrn, div_le_iff₀ hn', lt_div_iff₀ hn']
    · rw [← sub_div]
      norm_num
  · intro post hs hl
    have hidx := hidxgen _ hl
    cases hget : (handOffCandidates st).get?
        (chooseIdx r (handOffCandidates st).length) with
    | none => exact absurd hidx (not_lt.mpr (List.get?_eq_none.mp hget))
    | some p =>
        obtain ⟨nm, d⟩ := p
        refine ⟨nm, d, rfl, ?_⟩
        have hget2 := hget
        simp only [List.get?_eq_getElem?] at hget2
        rw [handOff_trace_eq]
        simp [handOffBranch, hs, hl, hget2, stopWorkerRegistry]

/-- Witness for C4: with `r = 1/2` and two candidates the drawn index is 1. -/
theorem handOff_candidates_uniform_witness :
    (0 : ℚ) ≤ 1/2 ∧ (1/2 : ℚ) < 1 ∧ chooseIdx (1/2) 2 = 1 := by
  refine ⟨by norm_num, by norm_num, ?_⟩
  have h := (((handOff_candidates_uniform freshState (1/2) (by norm_num)
      (by norm_num)).2.1 2 (by norm_num)).2 1 (by norm_num)).1
  rw [h]
  constructor <;> norm_num

/-- Claim C9: the HandoffReceiver `POST /` handler replaces this process’s
registry wholesale with the posted body (no merging, no filtering) and then
invokes RegistryServer start; when the well-known port is free and this
process holds no server handle, the registry server is then running (the
process claims ownership). -/
theorem handOffReceiverHandler_spec (st : ProcState) (body : WorkerRegistry)
    (bindError : Option String) (st2 : ProcState) (evs : List Event)
    (h : handOffReceiverHandler st body bindError = Except.ok (st2, evs)) :
    st2.workers = body ∧ Event.startRegistryCall ∈ evs ∧
    (bindError = none → st.serverVar = false → st2.registryRunning = true) := by
  cases bindError with
  | none =>
      cases hs : st.serverVar with
      | true =>
          simp [handOffReceiverHandler, startWorkerRegistry, isPortAvailable, hs] at h
          obtain ⟨h1, h2⟩ := h
          subst h1; subst h2
          simp [hs]
      | false =>
          simp [handOffReceiverHandler, startWorkerRegistry, isPortAvailable, hs] at h
          obtain ⟨h1, h2⟩ := h
          subst h1; subst h2
          simp
  | some code =>
      by_cases hc : code = "EADDRINUSE"
      · simp [handOffReceiverHandler, startWorkerRegistry, isPortAvailable, hc] at h
        obtain ⟨h1, h2⟩ := h
        subst h1; subst h2
        simp
      · simp [handOffReceiverHandler, startWorkerRegistry, isPortAvailable, hc] at h

/-- Witness for C9 at a fresh receiving process and a concrete posted body. -/
theorem handOffReceiverHandler_spec_witness :
    (handOffReceiverHandler freshState [("a", sampleDefinition)] none =
      Except.ok
        ({ freshState with
            workers := [("a", sampleDefinition)]
            serverVar := true
            registryRunning := true },
          [Event.startRegistryCall, Event.registryListen])) ∧
    (({ freshState with
          workers := [("a", sampleDefinition)]
          serverVar := true
          registryRunning := true } : ProcState).workers = [("a", sampleDefinition)] ∧
      Event.startRegistryCall ∈ [Event.startRegistryCall, Event.registryListen] ∧
      ((none : Option String) = none → freshState.serverVar = false →
        ({ freshState with
            workers := [("a", sampleDefinition)]
            serverVar := true
            registryRunning := true } : ProcState).registryRunning = true)) :=
  ⟨rfl, handOffReceiverHandler_spec freshState [("a", sampleDefinition)] none _ _ rfl⟩

/-- Claim C7: `getBoundRegisteredWorkers` is a pure filter returning exactly
the registry entries whose key is a declared service-binding name or a script
name referenced by a declared durable-object binding; an absent registry
(connection refused/reset) yields the empty mapping. -/
theorem getBoundRegisteredWorkers_filter (services : Option (List ServiceBinding))
    (durableObjects : Option DurableObjectsConfig) (w : WorkerRegistry) :
    getBoundRegisteredWorkers services durableObjects (Except.ok w) =
      Except.ok (w.filter
        (boundWorkerFilter ((services.getD []).map (fun b => b.service))
          ((durableObjects.getD ⟨[]⟩).bindings.map (fun b => b.script_name)))) ∧
    (∀ nm d,
      (nm, d) ∈ w.filter
          (boundWorkerFilter ((services.getD []).map (fun b => b.service))
            ((durableObjects.getD ⟨[]⟩).bindings.map (fun b => b.script_name))) ↔
        ((nm, d) ∈ w ∧
          (nm ∈ (services.getD []).map (fun b => b.service) ∨
            some nm ∈ (durableObjects.getD ⟨[]⟩).bindings.map
              (fun b => b.script_name)))) ∧
    (∀ c, isConnClosedCode c = true →
      getBoundRegisteredWorkers services durableObjects (Except.error c) =
        Except.ok []) := by
  refine ⟨rfl, fun nm d => ?_, fun c hc => ?_⟩
  · simp [boundWorkerFilter, List.mem_filter]
  · simp [getBoundRegisteredWorkers, getRegisteredWorkers, hc]

/-- Witness for C7 at a concrete configuration and a conn-refused fetch. -/
theorem getBoundRegisteredWorkers_filter_witness :
    isConnClosedCode (some "ECONNRESET") = true ∧
    getBoundRegisteredWorkers (some [⟨"svcA"⟩]) none
        (Except.error (some "ECONNRESET")) =
      Except.ok [] :=
  ⟨rfl, (getBoundRegisteredWorkers_filter (some [⟨"svcA"⟩]) none []).2.2
    (some "ECONNRESET") rfl⟩

end DevRegistry

namespace IssuesStore

/-- Claim C10: with nothing stored, `getLastUpdatedTimestamp` returns the
default timestamp; storing a non-empty timestamp and reading it back returns
it; a stored empty string also yields the default (truthiness check). -/
theorem timestamp_round_trip :
    getLastUpdatedTimestamp none = "2000-01-01T00:00:00Z" ∧
    (∀ (s : Storage) (t : String), t ≠ "" →
      getLastUpdatedTimestamp (setLastUpdatedTimestamp s t) = t) ∧
    (∀ s : Storage,
      getLastUpdatedTimestamp (setLastUpdatedTimestamp s "") =
        "2000-01-01T00:00:00Z") := by
  refine ⟨rfl, fun s t ht => ?_, fun s => rfl⟩
  simp [getLastUpdatedTimestamp, setLastUpdatedTimestamp, ht]

/-- Witness for C10 at a concrete non-empty timestamp. -/
theorem timestamp_round_trip_witness :
    ("2024-05-01T00:00:00Z" : String) ≠ "" ∧
    getLastUpdatedTimestamp (setLastUpdatedTimestamp none "2024-05-01T00:00:00Z") =
      "2024-05-01T00:00:00Z" :=
  ⟨by decide, timestamp_round_trip.2.1 none "2024-05-01T00:00:00Z" (by decide)⟩

end IssuesStore
